import Mathlib

/-
  Verification of the cross-project transfer protocol of Project-Minify.

  The definitions below are a shallow embedding of the two source files:
    packages/frontend/src/views/App.vue   (capture phase `onDuplicateProjectClick`,
                                           apply phase `handleProjectChange`)
    packages/backend/src/index.ts         (stored-data slots, RPC wrappers)

  Host SDK calls (entity creation, GraphQL lookups, request fetches) are
  modelled as oracles supplied through environment records; each oracle either
  returns a value or throws a JavaScript error.  Side effects are recorded in
  an explicit log of creation calls and toasts, in chronological order.
-/

namespace ProjectMinify

/-- A thrown JavaScript value: either an `Error` object carrying a message,
or any other value (whose string rendering is kept). -/
inductive JsError where
  | errObj (msg : String)
  | nonErr (str : String)
  deriving DecidableEq

/-- `error instanceof Error ? error.message : "Unknown error occurred"`. -/
def errorMessageUnknown (e : JsError) : String :=
  match e with
  | .errObj m => m
  | .nonErr _ => "Unknown error occurred"

/-- `error instanceof Error ? error.message : String(error)` (used by the
match/replace rule loop in App.vue). -/
def errorMessageString (e : JsError) : String :=
  match e with
  | .errObj m => m
  | .nonErr s => s

/-- The `Result<T>` type of packages/backend/src/index.ts. -/
inductive Result (α : Type) where
  | Error (error : String)
  | Ok (value : α)
  deriving DecidableEq

/-- Toast variants of the user feedback surface. -/
inductive Variant where
  | info
  | success
  | warning
  | error
  deriving DecidableEq

/-- A message shown through `showToast`. -/
structure Toast where
  message : String
  variant : Variant
  deriving DecidableEq

def mkToast (m : String) (v : Variant) : Toast := ⟨m, v⟩

/-- A filter definition; the only field the transfer logic inspects is the
optional `alias` natural key (the rest of the filter object is passed through
opaquely).  `aliasVal` embeds the source's `alias` field, a reserved word in
Lean. -/
structure Filter where
  aliasVal : Option String
  deriving DecidableEq

/-- A collection record, shallow-copied as `{ id, name }` by the capture phase
(App.vue lines 429 and 458). -/
structure CollRec where
  id : String
  name : String
  deriving DecidableEq

/-- A stored match/replace rule as the apply phase reads it from the snapshot
(App.vue line 121 cast; optional fields reflect the defensive `??` and
`!== undefined` checks in the apply code). `sectionVal` embeds the source's
`section` field (a Lean keyword). -/
structure SrcRule where
  id : String
  name : Option String
  isEnabled : Option Bool
  query : String
  sectionVal : String
  collectionId : Option String
  sources : Option (List String)
  deriving DecidableEq

/-- A stored replay session datum (App.vue line 252 cast). -/
structure SessionData where
  rawBytes : List Nat
  url : String
  name : Option String
  collectionId : Option String
  deriving DecidableEq

/-- The `matchReplace` slot of the snapshot (App.vue line 121; the apply code
guards both inner fields with `!== undefined` checks). -/
structure MRData where
  collections : Option (List CollRec)
  rules : Option (List SrcRule)
  deriving DecidableEq

/-- The stored snapshot as returned by the backend's `getStoredData` and
destructured by the apply phase (App.vue line 72). -/
structure StoredData where
  scopes : Option (List String)
  filters : Option (List Filter)
  sessions : Option (List SessionData)
  matchReplace : Option MRData
  selectedTypes : Option Unit
  replayCollections : Option (List CollRec)
  deriving DecidableEq

/-- Host creation calls issued by the apply phase, in source order of their
arguments. -/
inductive Call where
  | createScope (scope : String)
  | createFilter (filter : Filter)
  | createMRCollection (name : String)
  | createMRRule (collectionId : String) (name : Option String) (query : String)
      (sectionVal : String) (sources : List String)
  | createReplayCollection (name : String)
  | createSession (rawBytes : List Nat) (url : String) (collectionId : Option String)
  | renameSession (id : String) (name : String)
  deriving DecidableEq

/-- Chronological record of the side effects of a run: host calls issued and
toasts shown. -/
structure Log where
  calls : List Call
  toasts : List Toast
  deriving DecidableEq

def Log.nil : Log := ⟨[], []⟩

def Log.append (a b : Log) : Log := ⟨a.calls ++ b.calls, a.toasts ++ b.toasts⟩

/-- The per-run collection IdentityMap (`new Map<string, string>()`); `set`
prepends so a later `set` of the same key wins on `lookup`, matching JS `Map`
overwrite semantics. -/
abbrev IdMap := List (String × String)

/-- Oracles for the host entity-creation interface used by the apply phase.
`Except JsError` models a call that may throw; `Result` models the backend RPC
wrapper that catches internally. -/
structure ApplyEnv where
  createScopeFn : String → Except JsError Unit
  createFilterFn : Filter → Except JsError Unit
  mrCreateCollectionFn : String → Except JsError (Option String)
  createRuleFn : String → Option String → String → String → List String → Except JsError Unit
  replayCreateCollectionFn : String → Except JsError (Option String)
  createSessionWrapperFn : List Nat → String → Option String → Result (Option String)
  renameSessionFn : String → String → Except JsError Unit

/-- Scope re-creation loop (App.vue lines 96-101).  No per-item try/catch: a
throw aborts with the pending error, which the caller's outer catch handles. -/
def applyScopesLoop (env : ApplyEnv) : List String → Log × Nat × Option JsError
  | [] => (Log.nil, 0, none)
  | sc :: rest =>
    match env.createScopeFn sc with
    | .error e => (⟨[Call.createScope sc], []⟩, 0, some e)
    | .ok _ =>
      let r := applyScopesLoop env rest
      (⟨Call.createScope sc :: r.1.calls, r.1.toasts⟩, r.2.1 + 1, r.2.2)

/-- The skip condition of the filter loop (App.vue lines 107-111):
`filter.alias !== undefined && currentFilters.some(f => f.alias === filter.alias)`. -/
def filterSkipped (current : List Filter) (f : Filter) : Bool :=
  match f.aliasVal with
  | some a => current.any (fun g => g.aliasVal == some a)
  | none => false

/-- Filter re-creation loop (App.vue lines 104-117).  Duplicate-alias filters
are skipped; creation is not wrapped per item, so a throw aborts. -/
def applyFiltersLoop (env : ApplyEnv) (current : List Filter) :
    List Filter → Log × Nat × Option JsError
  | [] => (Log.nil, 0, none)
  | f :: rest =>
    if filterSkipped current f then applyFiltersLoop env current rest
    else
      match env.createFilterFn f with
      | .error e => (⟨[Call.createFilter f], []⟩, 0, some e)
      | .ok _ =>
        let r := applyFiltersLoop env current rest
        (⟨Call.createFilter f :: r.1.calls, r.1.toasts⟩, r.2.1 + 1, r.2.2)

/-- Match/replace collection reconciliation loop (App.vue lines 126-160).
Name matches reuse the existing id; otherwise creation is attempted inside a
per-item try/catch and failures only produce a warning. -/
def mrCollectionsLoop (env : ApplyEnv) (current : List CollRec) (m : IdMap) :
    List CollRec → Log × IdMap
  | [] => (Log.nil, m)
  | c :: rest =>
    match current.find? (fun t => t.name == c.name) with
    | some ex => mrCollectionsLoop env current ((c.id, ex.id) :: m) rest
    | none =>
      match env.mrCreateCollectionFn c.name with
      | .ok (some nid) =>
        let r := mrCollectionsLoop env current ((c.id, nid) :: m) rest
        (⟨Call.createMRCollection c.name :: r.1.calls, r.1.toasts⟩, r.2)
      | .ok none =>
        let r := mrCollectionsLoop env current m rest
        (⟨Call.createMRCollection c.name :: r.1.calls,
          mkToast ("Error creating match replace collection \"" ++ c.name ++
            "\": Collection was not created") Variant.warning :: r.1.toasts⟩, r.2)
      | .error e =>
        let r := mrCollectionsLoop env current m rest
        (⟨Call.createMRCollection c.name :: r.1.calls,
          mkToast ("Error creating match replace collection \"" ++ c.name ++
            "\": " ++ errorMessageUnknown e) Variant.warning :: r.1.toasts⟩, r.2)

/-- Resolution of a rule's stored `collectionId` through the IdentityMap
(App.vue lines 168-170): `rule.collectionId !== undefined &&
rule.collectionId !== "" ? collectionIdMap.get(rule.collectionId) : undefined`. -/
def ruleResolve (m : IdMap) (r : SrcRule) : Option String :=
  match r.collectionId with
  | some cid => if cid = "" then none else List.lookup cid m
  | none => none

/-- Match/replace rule creation loop (App.vue lines 163-203).  Unresolved
rules are skipped with a warning; creation failures are caught per item.  The
source passes a literal empty `sources` array (line 192). -/
def mrRulesLoop (env : ApplyEnv) (m : IdMap) : List SrcRule → Log × Nat
  | [] => (Log.nil, 0)
  | r :: rest =>
    match ruleResolve m r with
    | none =>
      let t := mrRulesLoop env m rest
      (⟨t.1.calls,
        mkToast ("Skipping rule \"" ++ (r.name.getD "Unknown Rule") ++
          "\": Collection not found or not mapped") Variant.warning :: t.1.toasts⟩, t.2)
    | some ncid =>
      match env.createRuleFn ncid r.name r.query r.sectionVal [] with
      | .ok _ =>
        let t := mrRulesLoop env m rest
        (⟨Call.createMRRule ncid r.name r.query r.sectionVal [] :: t.1.calls,
          t.1.toasts⟩, t.2 + 1)
      | .error e =>
        let t := mrRulesLoop env m rest
        (⟨Call.createMRRule ncid r.name r.query r.sectionVal [] :: t.1.calls,
          mkToast ("Error creating rule \"" ++ (r.name.getD "Unknown Rule") ++
            "\": " ++ errorMessageString e) Variant.warning :: t.1.toasts⟩, t.2)

/-- Replay collection reconciliation loop (App.vue lines 214-247); identical
in structure to the match/replace one, as in the source. -/
def replayCollectionsLoop (env : ApplyEnv) (current : List CollRec) (m : IdMap) :
    List CollRec → Log × IdMap
  | [] => (Log.nil, m)
  | c :: rest =>
    match current.find? (fun t => t.name == c.name) with
    | some ex => replayCollectionsLoop env current ((c.id, ex.id) :: m) rest
    | none =>
      match env.replayCreateCollectionFn c.name with
      | .ok (some nid) =>
        let r := replayCollectionsLoop env current ((c.id, nid) :: m) rest
        (⟨Call.createReplayCollection c.name :: r.1.calls, r.1.toasts⟩, r.2)
      | .ok none =>
        let r := replayCollectionsLoop env current m rest
        (⟨Call.createReplayCollection c.name :: r.1.calls,
          mkToast ("Error creating replay collection \"" ++ c.name ++
            "\": Collection was not created") Variant.warning :: r.1.toasts⟩, r.2)
      | .error e =>
        let r := replayCollectionsLoop env current m rest
        (⟨Call.createReplayCollection c.name :: r.1.calls,
          mkToast ("Error creating replay collection \"" ++ c.name ++
            "\": " ++ errorMessageUnknown e) Variant.warning :: r.1.toasts⟩, r.2)

/-- Resolution of a session's stored `collectionId` (App.vue lines 255-257):
`sessionData.collectionId !== undefined ? collectionIdMap.get(...) : undefined`. -/
def sessionResolve (m : IdMap) (s : SessionData) : Option String :=
  match s.collectionId with
  | some cid => List.lookup cid m
  | none => none

/-- JS string interpolation of a possibly-undefined name. -/
def showOptName (n : Option String) : String :=
  match n with
  | some s => s
  | none => "undefined"

/-- Replay session creation loop (App.vue lines 250-294).  The session is
created whether or not its collection id resolved; a rename is attempted when
a name is present, and a rename failure only warns. -/
def sessionsLoop (env : ApplyEnv) (m : IdMap) : List SessionData → Log × Nat
  | [] => (Log.nil, 0)
  | s :: rest =>
    let ncid := sessionResolve m s
    match env.createSessionWrapperFn s.rawBytes s.url ncid with
    | Result.Error e =>
      let t := sessionsLoop env m rest
      (⟨Call.createSession s.rawBytes s.url ncid :: t.1.calls,
        mkToast ("Error creating session \"" ++ showOptName s.name ++ "\": " ++ e)
          Variant.error :: t.1.toasts⟩, t.2)
    | Result.Ok vid =>
      match vid, s.name with
      | some sid, some nm =>
        match env.renameSessionFn sid nm with
        | .ok _ =>
          let t := sessionsLoop env m rest
          (⟨Call.createSession s.rawBytes s.url ncid ::
              Call.renameSession sid nm :: t.1.calls, t.1.toasts⟩, t.2 + 1)
        | .error e =>
          let t := sessionsLoop env m rest
          (⟨Call.createSession s.rawBytes s.url ncid ::
              Call.renameSession sid nm :: t.1.calls,
            mkToast ("Session created but could not rename to \"" ++ nm ++ "\": " ++
              errorMessageUnknown e) Variant.warning :: t.1.toasts⟩, t.2 + 1)
      | _, _ =>
        let t := sessionsLoop env m rest
        (⟨Call.createSession s.rawBytes s.url ncid :: t.1.calls, t.1.toasts⟩, t.2 + 1)

/-- Step 3 of the apply phase (App.vue lines 120-204): reconcile match/replace
collections, then create rules through the resulting map. -/
def mrStep (env : ApplyEnv) (current : List CollRec) (mr : Option MRData) : Log × Nat :=
  match mr with
  | none => (Log.nil, 0)
  | some d =>
    let c := match d.collections with
      | some cs => mrCollectionsLoop env current [] cs
      | none => (Log.nil, ([] : IdMap))
    let r := match d.rules with
      | some rs => mrRulesLoop env c.2 rs
      | none => (Log.nil, 0)
    (c.1.append r.1, r.2)

/-- Step 4 of the apply phase (App.vue lines 207-295): reconcile replay
collections, then create sessions through the resulting map. -/
def sessionsStep (env : ApplyEnv) (currentReplay : List CollRec)
    (sessions : Option (List SessionData)) (replayColls : Option (List CollRec)) :
    Log × Nat :=
  match sessions with
  | none => (Log.nil, 0)
  | some ss =>
    let c := match replayColls with
      | some cs => replayCollectionsLoop env currentReplay [] cs
      | none => (Log.nil, ([] : IdMap))
    let r := sessionsLoop env c.2 ss
    (c.1.append r.1, r.2)

/-- The final summary toasts (App.vue lines 297-301). -/
def successToasts (nScopes nFilters nRules nSessions : Nat) : List Toast :=
  [mkToast "Transfer complete: applied successfully" Variant.success,
   mkToast (toString nScopes ++ " scope(s) moved") Variant.info,
   mkToast (toString nFilters ++ " filter(s) moved") Variant.info,
   mkToast (toString nRules ++ " match & replace rule(s) moved") Variant.info,
   mkToast (toString nSessions ++ " replay session(s) moved") Variant.info]

/-- The body of the outer try (App.vue lines 94-308): scopes, filters,
match/replace, sessions, then summary toasts; a throw escaping the scope or
filter loop reaches the outer catch and ends the run with an error toast. -/
def applyBody (env : ApplyEnv) (currentFilters : List Filter)
    (currentCollections currentReplayCollections : List CollRec)
    (data : StoredData) : Log :=
  let s := match data.scopes with
    | some l => applyScopesLoop env l
    | none => (Log.nil, 0, none)
  match s.2.2 with
  | some e =>
    s.1.append ⟨[], [mkToast ("Error applying scopes/filters: " ++
      errorMessageUnknown e) Variant.error]⟩
  | none =>
    let f := match data.filters with
      | some l => applyFiltersLoop env currentFilters l
      | none => (Log.nil, 0, none)
    match f.2.2 with
    | some e =>
      (s.1.append f.1).append ⟨[], [mkToast ("Error applying scopes/filters: " ++
        errorMessageUnknown e) Variant.error]⟩
    | none =>
      let mrOut := mrStep env currentCollections data.matchReplace
      let seOut := sessionsStep env currentReplayCollections data.sessions
        data.replayCollections
      ((s.1.append f.1).append (mrOut.1.append seOut.1)).append
        ⟨[], successToasts s.2.1 f.2.1 mrOut.2 seOut.2⟩

/-- Everything the apply handler consumes: the creation oracles, the two
backend reads, and the three host reads done before the loops. -/
structure FrontEnv where
  env : ApplyEnv
  storedData : Result StoredData
  projectResult : Result (Option Unit)
  currentFilters : List Filter
  currentCollections : List CollRec
  currentReplayCollections : List CollRec

/-- The apply handler `handleProjectChange` (App.vue lines 50-309).  Returns
the new value of the `waitingforprojectchange` flag and the effect log. -/
def handleProjectChange (fe : FrontEnv) (projectName : Option String) (armed : Bool) :
    Bool × Log :=
  if armed = false then (armed, Log.nil)
  else
    let t0 := mkToast ("Project changed to: " ++ projectName.getD "unknown" ++
      ". Applying scopes, filters, sessions, and match replace rules...") Variant.info
    match fe.storedData with
    | Result.Error e =>
      (false, ⟨[], [t0, mkToast ("Error getting stored data: " ++ e) Variant.error]⟩)
    | Result.Ok data =>
      match fe.projectResult with
      | Result.Error e =>
        (false, ⟨[], [t0, mkToast ("Error getting current project: " ++ e) Variant.error]⟩)
      | Result.Ok none =>
        (false, ⟨[], [t0, mkToast "No current project found" Variant.error]⟩)
      | Result.Ok (some _) =>
        let b := applyBody fe.env fe.currentFilters fe.currentCollections
          fe.currentReplayCollections data
        (false, ⟨b.calls, t0 :: b.toasts⟩)

/-- Atomic actions at the start of the apply handler, used to state ordering
of the flag clear relative to asynchronous work. -/
inductive HAct where
  | checkFlag
  | clearFlag
  | toastInfo
  | awaitGetStoredData
  | awaitGetCurrentProject
  | applyEntities
  deriving DecidableEq

def HAct.isAsync : HAct → Bool
  | .awaitGetStoredData => true
  | .awaitGetCurrentProject => true
  | .applyEntities => true
  | _ => false

/-- The statement order at the top of `handleProjectChange` (App.vue lines
52-64): guard check, flag clear, info toast, then the first awaited call. -/
def handlerActionOrder : List HAct :=
  [HAct.checkFlag, HAct.clearFlag, HAct.toastInfo, HAct.awaitGetStoredData,
   HAct.awaitGetCurrentProject, HAct.applyEntities]

/- ===== Capture phase (App.vue, `onDuplicateProjectClick`, lines 315-480) ===== -/

/-- A request reference inside a GraphQL replay entry. -/
structure GqlRequest where
  id : String
  deriving DecidableEq

/-- A replay entry as returned by `activeReplayEntryBySession`. -/
structure GqlEntry where
  request : Option GqlRequest
  deriving DecidableEq

/-- The GraphQL view of a replay session: possibly an active entry, possibly a
list of entries (`entries?.nodes`). -/
structure GqlSession where
  activeEntry : Option GqlEntry
  entries : Option (List GqlEntry)
  deriving DecidableEq

/-- A source-project replay session as listed by `sdk.replay.getSessions()`. -/
structure SrcSession where
  id : String
  name : Option String
  collectionId : Option String
  deriving DecidableEq

/-- A source-project match/replace rule as listed by
`sdk.matchReplace.getRules()`; `sources` is optional because the installed
type may predate the field (App.vue lines 437-440). -/
structure CaptureRule where
  id : String
  name : String
  isEnabled : Bool
  query : String
  sectionVal : String
  collectionId : String
  sources : Option (List String)
  deriving DecidableEq

/-- Raw request data returned by the backend's `getSessionByIDWrapper`. -/
structure ReqData where
  rawBytes : List Nat
  url : String
  deriving DecidableEq

/-- The arguments handed to `prepareProjectTransfer` (App.vue line 462). -/
structure PreparePayload where
  scopes : List String
  filters : List Filter
  sessionsData : List SessionData
  matchReplaceData : MRData
  replayCollectionsData : List CollRec
  deriving DecidableEq

/-- Everything the capture handler consumes: the project lookup, the six
entity reads (with `readsResult` standing for a possible throw of those reads,
caught by the outer catch), the per-session GraphQL and request oracles, and
the outcome of the backend save. -/
structure CaptureEnv where
  projectResult : Result (Option Unit)
  readsResult : Except JsError Unit
  scopes : List String
  filters : List Filter
  srcSessions : List SrcSession
  replayCollections : List CollRec
  mrCollections : List CollRec
  mrRules : List CaptureRule
  graphqlFn : String → Except JsError (Option GqlSession)
  getSessionByIDFn : String → Result (Option ReqData)
  prepareResult : Result Unit

/-- `replaySession.activeEntry?.request?.id` (App.vue line 359). -/
def activeRequestId (g : GqlSession) : Option String :=
  g.activeEntry.bind (fun en => en.request.map GqlRequest.id)

/-- First entry with an associated request (App.vue lines 372-377). -/
def firstEntryRequestId (entries : List GqlEntry) : Option String :=
  entries.findSome? (fun en => en.request.map GqlRequest.id)

/-- The request-resolution policy of the capture phase: the active entry's
request first, otherwise the first entry (in order) with a request. -/
def resolvedRequestId (g : GqlSession) : Option String :=
  match activeRequestId g with
  | some rid => some rid
  | none => firstEntryRequestId (g.entries.getD [])

/-- Fetching the raw bytes and URL for a resolved request id (App.vue lines
390-410); failures and missing data exclude the session. -/
def fetchSessionData (cenv : CaptureEnv) (sessionName : String) (cid : Option String)
    (rid : String) : Option SessionData × List Toast :=
  match cenv.getSessionByIDFn rid with
  | Result.Error e =>
    (none, [mkToast ("Error getting request for session " ++ sessionName ++ ": " ++ e)
      Variant.error])
  | Result.Ok none =>
    (none, [mkToast ("Request data is undefined for session " ++ sessionName)
      Variant.warning])
  | Result.Ok (some rd) => (some ⟨rd.rawBytes, rd.url, some sessionName, cid⟩, [])

/-- Per-session capture step (App.vue lines 341-419): GraphQL lookup, request
resolution through the active entry then the entry list, then the fetch. -/
def captureSessionStep (cenv : CaptureEnv) (s : SrcSession) :
    Option SessionData × List Toast :=
  let sessionName := s.name.getD s.id
  match cenv.graphqlFn s.id with
  | .error e =>
    (none, [mkToast ("Error querying session " ++ sessionName ++ ": " ++
      errorMessageUnknown e) Variant.error])
  | .ok none =>
    (none, [mkToast ("Session " ++ sessionName ++ " not found in GraphQL")
      Variant.warning])
  | .ok (some g) =>
    match activeRequestId g with
    | some rid => fetchSessionData cenv sessionName s.collectionId rid
    | none =>
      match g.entries with
      | none =>
        (none, [mkToast ("Session " ++ sessionName ++ " has no entries")
          Variant.warning])
      | some entries =>
        if entries.length = 0 then
          (none, [mkToast ("Session " ++ sessionName ++ " has no entries")
            Variant.warning])
        else
          match firstEntryRequestId entries with
          | some rid => fetchSessionData cenv sessionName s.collectionId rid
          | none =>
            (none, [mkToast ("Session " ++ sessionName ++ " has " ++
              toString entries.length ++
              " entry/entries but none have a request associated. Send the request before duplicating the project.")
              Variant.warning])

/-- The capture loop over replay sessions (App.vue lines 340-421), collecting
included sessions and surfaced toasts in order. -/
def captureSessionsLoop (cenv : CaptureEnv) : List SrcSession → List SessionData × List Toast
  | [] => ([], [])
  | s :: rest =>
    let r := captureSessionStep cenv s
    let t := captureSessionsLoop cenv rest
    ((match r.1 with | some d => d :: t.1 | none => t.1), r.2 ++ t.2)

/-- The per-rule snapshot record built at App.vue lines 441-449 (`sources`
falls back to an empty array when the runtime object lacks the field). -/
def captureRuleData (r : CaptureRule) : SrcRule :=
  ⟨r.id, some r.name, some r.isEnabled, r.query, r.sectionVal, some r.collectionId,
    some (r.sources.getD [])⟩

/-- The capture handler `onDuplicateProjectClick` (App.vue lines 315-480).
Returns the final `waitingforprojectchange` flag, the toasts, and the payload
passed to `prepareProjectTransfer` (when the call was reached).  The flag is
set to `true` at line 454, before the save, and is not reset when the save
returns an error. -/
def captureRun (cenv : CaptureEnv) (armed0 : Bool) :
    Bool × List Toast × Option PreparePayload :=
  match cenv.projectResult with
  | Result.Error e => (armed0, [mkToast e Variant.error], none)
  | Result.Ok none => (armed0, [mkToast "No current project found" Variant.error], none)
  | Result.Ok (some _) =>
    match cenv.readsResult with
    | .error e =>
      (armed0, [mkToast ("Error preparing project transfer: " ++ errorMessageUnknown e)
        Variant.error], none)
    | .ok _ =>
      let sess := captureSessionsLoop cenv cenv.srcSessions
      let matchReplaceData : MRData :=
        ⟨some (cenv.mrCollections.map (fun c => ⟨c.id, c.name⟩)),
         some (cenv.mrRules.map captureRuleData)⟩
      let replayCollectionsData := cenv.replayCollections.map (fun c => (⟨c.id, c.name⟩ : CollRec))
      let payload : PreparePayload :=
        ⟨cenv.scopes, cenv.filters, sess.1, matchReplaceData, replayCollectionsData⟩
      match cenv.prepareResult with
      | Result.Error e => (true, sess.2 ++ [mkToast e Variant.error], some payload)
      | Result.Ok _ =>
        (true, sess.2 ++ [mkToast
          "Scopes, filters, sessions, and match replace captured. Switch to another project to apply them."
          Variant.success], some payload)

/- ===== Backend store (packages/backend/src/index.ts) ===== -/

/-- The six module-level slots of the backend (index.ts lines 27-32); `U`
stands for the TypeScript `unknown`, `none` for the initial `undefined`. -/
structure BackendStore (U : Type) where
  storedScopes : Option U
  storedFilters : Option U
  storedSessions : Option U
  storedMatchReplace : Option U
  storedSelectedTypes : Option U
  storedReplayCollections : Option U

def initialStore (U : Type) : BackendStore U :=
  ⟨none, none, none, none, none, none⟩

/-- The value object returned by `getStoredData` (index.ts line 58). -/
structure StoredView (U : Type) where
  scopes : Option U
  filters : Option U
  sessions : Option U
  matchReplace : Option U
  selectedTypes : Option U
  replayCollections : Option U

/-- The operations of the backend API surface (index.ts lines 129-135). -/
inductive BackendOp (U : Type) where
  | getCurrentProject
  | prepareProjectTransfer (scopes filters sessions matchReplace replayCollections : U)
  | getStoredData
  | createSessionWrapper
  | getSessionByIDWrapper

/-- State effect of one backend call: only `prepareProjectTransfer` writes the
slots (index.ts lines 42-47), and it writes five of the six. -/
def backendStep {U : Type} (st : BackendStore U) (op : BackendOp U) : BackendStore U :=
  match op with
  | .prepareProjectTransfer a b c d e =>
    { storedScopes := some a, storedFilters := some b, storedSessions := some c,
      storedMatchReplace := some d, storedSelectedTypes := st.storedSelectedTypes,
      storedReplayCollections := some e }
  | _ => st

/-- `getStoredData` (index.ts lines 56-64): packages the six slots. -/
def getStoredData {U : Type} (st : BackendStore U) : Result (StoredView U) :=
  Result.Ok ⟨st.storedScopes, st.storedFilters, st.storedSessions,
    st.storedMatchReplace, st.storedSelectedTypes, st.storedReplayCollections⟩

/- ===== Backend `getSessionByIDWrapper` (index.ts lines 98-127) ===== -/

/-- The raw spec data extractable from a request object (`getRaw`, `getHost`,
`getPort`, `getTls`). -/
structure RawSpec where
  raw : List Nat
  host : String
  port : Nat
  tls : Bool
  deriving DecidableEq

/-- The response of `sdk.requests.get`: possibly no response, and the response
object's `request` field may itself be absent.  The request object is kept
opaque (a token handed to the extraction oracle). -/
structure RequestResponse where
  request : Option String
  deriving DecidableEq

/-- Host oracles for `getSessionByIDWrapper`: the request lookup and the
spec extraction (`toSpecRaw` and the getters), each of which may throw. -/
structure GetSessionEnv where
  requestsGet : Except JsError (Option RequestResponse)
  toSpecRaw : String → Except JsError RawSpec

/-- URL assembly of index.ts line 119; a zero port is falsy in JS and is
omitted. -/
def buildUrl (spec : RawSpec) : String :=
  (if spec.tls then "https" else "http") ++ "://" ++ spec.host ++
    (if spec.port = 0 then "" else ":" ++ toString spec.port)

/-- `getSessionByIDWrapper` (index.ts lines 98-127): a missing response or a
response without a request yields `Ok undefined`; any throw is converted to an
`Error` result. -/
def getSessionByIDWrapper (env : GetSessionEnv) : Result (Option ReqData) :=
  match env.requestsGet with
  | .error e => Result.Error (errorMessageUnknown e)
  | .ok none => Result.Ok none
  | .ok (some resp) =>
    match resp.request with
    | none => Result.Ok none
    | some req =>
      match env.toSpecRaw req with
      | .error e => Result.Error (errorMessageUnknown e)
      | .ok spec => Result.Ok (some ⟨spec.raw, buildUrl spec⟩)

/- ===== Concrete environments used by witnesses and counterexamples ===== -/

/-- An apply environment whose creations all succeed (collection creations
report no id, so no mapping entries are added by creation). -/
def envTrivial : ApplyEnv where
  createScopeFn := fun _ => .ok ()
  createFilterFn := fun _ => .ok ()
  mrCreateCollectionFn := fun _ => .ok none
  createRuleFn := fun _ _ _ _ _ => .ok ()
  replayCreateCollectionFn := fun _ => .ok none
  createSessionWrapperFn := fun _ _ _ => Result.Ok none
  renameSessionFn := fun _ _ => .ok ()

/-- Like `envTrivial` but scope creation throws. -/
def envScopeFail : ApplyEnv :=
  { envTrivial with createScopeFn := fun _ => .error (.errObj "boom") }

/-- Like `envTrivial` but session creation reports an error result. -/
def envSessionFail : ApplyEnv :=
  { envTrivial with createSessionWrapperFn := fun _ _ _ => Result.Error "down" }

/-- A frontend environment whose snapshot holds one scope and one alias-less
filter, with a scope creation that throws. -/
def feScopeFail : FrontEnv :=
  ⟨envScopeFail, Result.Ok ⟨some ["s1"], some [⟨none⟩], none, none, none, none⟩,
   Result.Ok (some ()), [], [], []⟩

/-- A frontend environment with an empty snapshot and successful reads. -/
def feIdle : FrontEnv :=
  ⟨envTrivial, Result.Ok ⟨none, none, none, none, none, none⟩,
   Result.Ok (some ()), [], [], []⟩

/-- A stored rule that resolves to collection `old-1` and carries a non-empty
`sources` set. -/
def ruleSourcesEx : SrcRule :=
  ⟨"old-r1", some "R", some true, "q", "sec", some "old-1", some ["ui"]⟩

/-- A stored session referencing a collection id with no IdentityMap entry. -/
def sessEx : SessionData := ⟨[1, 2], "http://a", some "S", some "old-1"⟩

/-- A capture environment where everything succeeds except the backend save. -/
def cenvPrepFail : CaptureEnv :=
  ⟨Result.Ok (some ()), Except.ok (), [], [], [], [], [], [],
   fun _ => Except.ok none, fun _ => Result.Ok none, Result.Error "disk full"⟩

/-- A GraphQL session whose active entry is absent and whose first entry has
no request while the second does. -/
def gqlEx : GqlSession := ⟨none, some [⟨none⟩, ⟨some ⟨"rid2"⟩⟩]⟩

/-- A capture environment resolving every session to `gqlEx` and fetching
request bytes successfully. -/
def cenvGql : CaptureEnv :=
  ⟨Result.Ok (some ()), Except.ok (), [], [], [⟨"sid1", some "S1", none⟩], [], [], [],
   fun _ => Except.ok (some gqlEx), fun _ => Result.Ok (some ⟨[9], "http://x"⟩),
   Result.Ok ()⟩

/- ===== Theorems ===== -/

/-- C5: after a single arm, at most one apply run executes.  The handler on an
unarmed flag is a no-op with no side effects; on an armed flag it always
returns with the flag cleared regardless of the environment, so a second
notification (or re-entrant call) after the first is a no-op; and in the
handler's statement order the flag clear precedes every asynchronous action. -/
theorem c5_at_most_one_apply (fe fe2 : FrontEnv) (nm nm2 : Option String) :
    handleProjectChange fe nm false = (false, Log.nil) ∧
    (handleProjectChange fe nm true).1 = false ∧
    handleProjectChange fe2 nm2 (handleProjectChange fe nm true).1 = (false, Log.nil) ∧
    ∃ pre post, handlerActionOrder = pre ++ HAct.clearFlag :: post ∧
      ∀ a ∈ pre, a.isAsync = false := by
  have h2 : (handleProjectChange fe nm true).1 = false := by
    unfold handleProjectChange
    rw [if_neg (by simp)]
    cases fe.storedData with
    | Error e => rfl
    | Ok data =>
      cases fe.projectResult with
      | Error e => rfl
      | Ok v => cases v <;> rfl
  refine ⟨rfl, h2, ?_, ⟨[HAct.checkFlag],
    [HAct.toastInfo, HAct.awaitGetStoredData, HAct.awaitGetCurrentProject,
      HAct.applyEntities], rfl, by decide⟩⟩
  rw [h2]
  rfl

/-- Helper: no backend operation writes the `storedSelectedTypes` slot. -/
theorem backendStep_selectedTypes {U : Type} (st : BackendStore U) (op : BackendOp U) :
    (backendStep st op).storedSelectedTypes = st.storedSelectedTypes := by
  cases op <;> rfl

/-- Helper: folding any operation sequence preserves `storedSelectedTypes`. -/
theorem foldl_backendStep_selectedTypes {U : Type} (ops : List (BackendOp U))
    (st : BackendStore U) :
    (ops.foldl backendStep st).storedSelectedTypes = st.storedSelectedTypes := by
  induction ops generalizing st with
  | nil => rfl
  | cons op rest ih => rw [List.foldl_cons, ih, backendStep_selectedTypes]

/-- C9: for every sequence of backend API calls starting from the initial
state, `getStoredData` returns Ok with `selectedTypes = undefined`, because no
operation ever writes that slot. -/
theorem c9_selectedTypes_always_undefined (U : Type) (ops : List (BackendOp U)) :
    ∃ v : StoredView U,
      getStoredData (ops.foldl backendStep (initialStore U)) = Result.Ok v ∧
        v.selectedTypes = none := by
  refine ⟨_, rfl, ?_⟩
  show (ops.foldl backendStep (initialStore U)).storedSelectedTypes = none
  rw [foldl_backendStep_selectedTypes]
  rfl

/-- C10: `getSessionByIDWrapper` always returns a `Result`; a missing response
or a response without a request yields `Ok undefined`; a throw from the
request lookup or the spec extraction is converted to an `Error` result. -/
theorem c10_getSessionByIDWrapper_never_throws (env : GetSessionEnv) :
    ((∃ s, getSessionByIDWrapper env = Result.Error s) ∨
      (∃ v, getSessionByIDWrapper env = Result.Ok v)) ∧
    (env.requestsGet = Except.ok none → getSessionByIDWrapper env = Result.Ok none) ∧
    (∀ resp, env.requestsGet = Except.ok (some resp) → resp.request = none →
      getSessionByIDWrapper env = Result.Ok none) ∧
    (∀ e, env.requestsGet = Except.error e →
      getSessionByIDWrapper env = Result.Error (errorMessageUnknown e)) ∧
    (∀ resp req e, env.requestsGet = Except.ok (some resp) → resp.request = some req →
      env.toSpecRaw req = Except.error e →
      getSessionByIDWrapper env = Result.Error (errorMessageUnknown e)) := by
  refine ⟨?_, ?_, ?_, ?_, ?_⟩
  · unfold getSessionByIDWrapper
    repeat' split
    all_goals first
      | exact Or.inl ⟨_, rfl⟩
      | exact Or.inr ⟨_, rfl⟩
  · intro h; unfold getSessionByIDWrapper; rw [h]
  · intro resp h hr; unfold getSessionByIDWrapper; rw [h]; simp only [hr]
  · intro e h; unfold getSessionByIDWrapper; rw [h]
  · intro resp req e h hr hs
    unfold getSessionByIDWrapper
    rw [h]; simp only [hr, hs]

/-- C10 witness: at a concrete environment whose lookup returns no response,
the wrapper returns `Ok undefined`. -/
theorem c10_witness :
    getSessionByIDWrapper ⟨Except.ok none, fun _ => Except.ok ⟨[], "h", 0, false⟩⟩ =
      Result.Ok none :=
  (c10_getSessionByIDWrapper_never_throws
    ⟨Except.ok none, fun _ => Except.ok ⟨[], "h", 0, false⟩⟩).2.1 rfl

/-- C1 (code bug): a snapshot rule with stored `sources = ["ui"]` whose
collection resolves is created with an empty `sources` list — the stored
sources are discarded by the apply phase. -/
theorem c1_sources_discarded :
    ruleSourcesEx.sources = some ["ui"] ∧
    (mrStep envTrivial [⟨"new-1", "C"⟩]
        (some ⟨some [⟨"old-1", "C"⟩], some [ruleSourcesEx]⟩)).1.calls =
      [Call.createMRRule "new-1" (some "R") "q" "sec" []] ∧
    Call.createMRRule "new-1" (some "R") "q" "sec" ["ui"] ∉
      (mrStep envTrivial [⟨"new-1", "C"⟩]
        (some ⟨some [⟨"old-1", "C"⟩], some [ruleSourcesEx]⟩)).1.calls := by
  refine ⟨rfl, rfl, by decide⟩

/-- C2 counterexample: a scope-creation failure is not caught per item — it
reaches the outer catch as an error (not a warning) and aborts the filter
step, whose alias-less filter is never created. -/
theorem c2_scope_failure_aborts :
    (handleProjectChange feScopeFail (some "P") true).2.calls = [Call.createScope "s1"] ∧
    Call.createFilter ⟨none⟩ ∉ (handleProjectChange feScopeFail (some "P") true).2.calls ∧
    (handleProjectChange feScopeFail (some "P") true).2.toasts.map Toast.variant =
      [Variant.info, Variant.error] := by
  refine ⟨rfl, by decide, rfl⟩

/-- C4 counterexample: a session whose stored `collectionId` has no entry in
the IdentityMap is not skipped — its create call occurs (uncategorized). -/
theorem c4_session_created_despite_unresolved :
    sessEx.collectionId = some "old-1" ∧
    (sessionsStep envTrivial [] (some [sessEx]) (some [])).1.calls =
      [Call.createSession [1, 2] "http://a" none] :=
  ⟨rfl, rfl⟩

/-- C3 counterexample: the armed flag is set before the save, so after a
failed save the system is armed — and an armed flag makes the next
project-change notification perform side effects. -/
theorem c3_armed_despite_failed_save :
    cenvPrepFail.prepareResult = Result.Error "disk full" ∧
    (captureRun cenvPrepFail false).1 = true ∧
    (handleProjectChange feIdle (some "P") true).2.toasts ≠ [] := by
  refine ⟨rfl, rfl, by decide⟩

/-- C3 (amended): whenever the capture handler finds a current project and its
entity reads succeed, it finishes armed — the flag is set before the save and
remains set whether or not the save succeeds. -/
theorem c3_amended_armed_before_save (cenv : CaptureEnv) (armed0 : Bool)
    (hp : cenv.projectResult = Result.Ok (some ()))
    (hr : cenv.readsResult = Except.ok ()) :
    (captureRun cenv armed0).1 = true := by
  unfold captureRun
  rw [hp, hr]
  cases cenv.prepareResult <;> rfl

/-- C3 amended witness: the concrete failed-save capture environment ends
armed. -/
theorem c3_amended_witness : (captureRun cenvPrepFail false).1 = true :=
  c3_amended_armed_before_save cenvPrepFail false rfl rfl

/-- Helper: when the GraphQL lookup succeeds and the resolution policy finds a
request id, the capture step fetches exactly that id. -/
theorem captureSessionStep_resolved (cenv : CaptureEnv) (s : SrcSession) (g : GqlSession)
    (hg : cenv.graphqlFn s.id = Except.ok (some g)) (rid : String)
    (hres : resolvedRequestId g = some rid) :
    captureSessionStep cenv s =
      fetchSessionData cenv (s.name.getD s.id) s.collectionId rid := by
  unfold captureSessionStep
  simp only [hg]
  unfold resolvedRequestId at hres
  cases ha : activeRequestId g with
  | some rid2 =>
    rw [ha] at hres
    simp only [Option.some.injEq] at hres
    subst hres
    rfl
  | none =>
    rw [ha] at hres
    simp only at hres
    cases he : g.entries with
    | none =>
      rw [he] at hres
      simp [firstEntryRequestId] at hres
    | some entries =>
      rw [he] at hres
      simp only [Option.getD_some] at hres
      cases entries with
      | nil => simp [firstEntryRequestId] at hres
      | cons e es =>
        simp only [List.length_cons, Nat.succ_ne_zero, if_false]
        rw [hres]

/-- Helper: when the GraphQL lookup succeeds but neither the active entry nor
any entry has a request, the capture step excludes the session and surfaces a
single warning. -/
theorem captureSessionStep_unresolved (cenv : CaptureEnv) (s : SrcSession) (g : GqlSession)
    (hg : cenv.graphqlFn s.id = Except.ok (some g))
    (hres : resolvedRequestId g = none) :
    ∃ msg, captureSessionStep cenv s = (none, [mkToast msg Variant.warning]) := by
  unfold captureSessionStep
  simp only [hg]
  unfold resolvedRequestId at hres
  cases ha : activeRequestId g with
  | some rid2 => rw [ha] at hres; simp at hres
  | none =>
    rw [ha] at hres
    simp only at hres
    cases he : g.entries with
    | none => exact ⟨_, rfl⟩
    | some entries =>
      rw [he] at hres
      simp only [Option.getD_some] at hres
      cases entries with
      | nil => exact ⟨_, rfl⟩
      | cons e es =>
        simp only [List.length_cons, Nat.succ_ne_zero, if_false]
        rw [hres]
        exact ⟨_, rfl⟩

/-- C8: during capture, each session's request is resolved from the active
entry first, otherwise from the first entry (in order) carrying a request;
when no entry has a request the session is excluded from the snapshot with a
warning and the loop continues with the remaining sessions. -/
theorem c8_session_request_resolution (cenv : CaptureEnv) (s : SrcSession) (g : GqlSession)
    (hg : cenv.graphqlFn s.id = Except.ok (some g)) :
    (∀ rid, resolvedRequestId g = some rid →
      captureSessionStep cenv s =
        fetchSessionData cenv (s.name.getD s.id) s.collectionId rid) ∧
    (resolvedRequestId g = none →
      (captureSessionStep cenv s).1 = none ∧
      ∃ msg, (captureSessionStep cenv s).2 = [mkToast msg Variant.warning]) ∧
    (∀ rest, resolvedRequestId g = none →
      (captureSessionsLoop cenv (s :: rest)).1 = (captureSessionsLoop cenv rest).1 ∧
      (captureSessionsLoop cenv (s :: rest)).2 =
        (captureSessionStep cenv s).2 ++ (captureSessionsLoop cenv rest).2) := by
  refine ⟨fun rid hres => captureSessionStep_resolved cenv s g hg rid hres, ?_, ?_⟩
  · intro hres
    obtain ⟨msg, hmsg⟩ := captureSessionStep_unresolved cenv s g hg hres
    exact ⟨by rw [hmsg], msg, by rw [hmsg]⟩
  · intro rest hres
    obtain ⟨msg, hmsg⟩ := captureSessionStep_unresolved cenv s g hg hres
    constructor
    · show (match (captureSessionStep cenv s).1 with
        | some d => d :: (captureSessionsLoop cenv rest).1
        | none => (captureSessionsLoop cenv rest).1) = (captureSessionsLoop cenv rest).1
      rw [hmsg]
    · rfl

/-- C8 witness: a session whose GraphQL view has no active entry and whose
first entry lacks a request resolves to the second entry's request id. -/
theorem c8_witness :
    captureSessionStep cenvGql ⟨"sid1", some "S1", none⟩ =
      fetchSessionData cenvGql "S1" none "rid2" :=
  (c8_session_request_resolution cenvGql ⟨"sid1", some "S1", none⟩ gqlEx rfl).1 "rid2" rfl

/-- Helper: a filter whose defined alias matches an existing filter's alias
satisfies the loop's skip condition. -/
theorem filterSkipped_of_alias_match (current : List Filter) (f : Filter) (a : String)
    (hf : f.aliasVal = some a) (g : Filter) (hg : g ∈ current)
    (hga : g.aliasVal = some a) :
    filterSkipped current f = true := by
  unfold filterSkipped
  rw [hf, List.any_eq_true]
  exact ⟨g, hg, by rw [hga]; exact beq_self_eq_true _⟩

/-- Helper: every filter-creation call recorded by the loop is for a
non-skipped snapshot filter. -/
theorem applyFiltersLoop_calls_characterize (env : ApplyEnv) (current filters : List Filter) :
    ∀ c ∈ (applyFiltersLoop env current filters).1.calls,
      ∃ f ∈ filters, c = Call.createFilter f ∧ filterSkipped current f = false := by
  induction filters with
  | nil => intro c hc; simp [applyFiltersLoop, Log.nil] at hc
  | cons f rest ih =>
    intro c hc
    unfold applyFiltersLoop at hc
    cases hsk : filterSkipped current f with
    | true =>
      simp only [hsk, if_true] at hc
      obtain ⟨f', hf', hcf⟩ := ih c hc
      exact ⟨f', List.mem_cons_of_mem f hf', hcf⟩
    | false =>
      simp only [hsk, Bool.false_eq_true, if_false] at hc
      cases hcf : env.createFilterFn f with
      | error e =>
        simp only [hcf] at hc
        rcases List.mem_singleton.mp hc with rfl
        exact ⟨f, List.mem_cons_self f rest, rfl, hsk⟩
      | ok u =>
        simp only [hcf] at hc
        rcases List.mem_cons.mp hc with rfl | hmem
        · exact ⟨f, List.mem_cons_self f rest, rfl, hsk⟩
        · obtain ⟨f', hf', hcf'⟩ := ih c hmem
          exact ⟨f', List.mem_cons_of_mem f hf', hcf'⟩

/-- Helper: with all filter creations succeeding, every non-skipped snapshot
filter's create call is recorded. -/
theorem applyFiltersLoop_creates (env : ApplyEnv)
    (hok : ∀ f, env.createFilterFn f = Except.ok ()) (current filters : List Filter)
    (f : Filter) (hf : f ∈ filters) (hsk : filterSkipped current f = false) :
    Call.createFilter f ∈ (applyFiltersLoop env current filters).1.calls := by
  induction filters with
  | nil => cases hf
  | cons g rest ih =>
    unfold applyFiltersLoop
    rcases List.mem_cons.mp hf with rfl | hmem
    · simp only [hsk, Bool.false_eq_true, if_false, hok f]
      exact List.mem_cons_self _ _
    · cases hsk2 : filterSkipped current g with
      | true =>
        simp only [hsk2, if_true]
        exact ih hmem
      | false =>
        simp only [hsk2, Bool.false_eq_true, if_false, hok g]
        exact List.mem_cons_of_mem _ (ih hmem)

/-- C7: during apply, a snapshot filter with a defined alias equal to some
existing target filter's alias is skipped (no create call), and — when
creations succeed — every filter whose alias is undefined is created
regardless of the target project's existing filters. -/
theorem c7_filter_alias_dedup (env : ApplyEnv)
    (hok : ∀ f, env.createFilterFn f = Except.ok ())
    (filters current : List Filter) (f : Filter) (hf : f ∈ filters) :
    ((∃ a, f.aliasVal = some a ∧ ∃ g ∈ current, g.aliasVal = some a) →
      Call.createFilter f ∉ (applyFiltersLoop env current filters).1.calls) ∧
    (f.aliasVal = none →
      Call.createFilter f ∈ (applyFiltersLoop env current filters).1.calls) := by
  constructor
  · rintro ⟨a, hfa, g, hg, hga⟩ hmem
    obtain ⟨f', hf', hceq, hskf⟩ :=
      applyFiltersLoop_calls_characterize env current filters _ hmem
    have hff : f = f' := by injection hceq
    rw [← hff] at hskf
    rw [filterSkipped_of_alias_match current f a hfa g hg hga] at hskf
    cases hskf
  · intro hnone
    exact applyFiltersLoop_creates env hok current filters f hf
      (by simp [filterSkipped, hnone])

/-- C7 witness: an alias-less filter is created into an empty target. -/
theorem c7_witness :
    Call.createFilter ⟨none⟩ ∈ (applyFiltersLoop envTrivial [] [⟨none⟩]).1.calls :=
  (c7_filter_alias_dedup envTrivial (fun _ => rfl) [⟨none⟩] [] ⟨none⟩ (by decide)).2 rfl

/-- Helper: the match/replace reconciliation loop never touches map entries
for keys outside the processed source ids. -/
theorem mrCollectionsLoop_lookup_frozen (env : ApplyEnv) (current : List CollRec)
    (source : List CollRec) (k : String) :
    ∀ m : IdMap, k ∉ source.map CollRec.id →
      List.lookup k (mrCollectionsLoop env current m source).2 = List.lookup k m := by
  induction source with
  | nil => intro m _; rfl
  | cons c rest ih =>
    intro m hk
    have hkc : k ≠ c.id := by
      intro h
      exact hk (by rw [h]; exact List.mem_cons_self _ _)
    have hbeq : (k == c.id) = false := beq_eq_false_iff_ne.mpr hkc
    have hk' : k ∉ rest.map CollRec.id := fun h => hk (List.mem_cons_of_mem _ h)
    unfold mrCollectionsLoop
    cases hf : current.find? (fun t => t.name == c.name) with
    | some ex =>
      simp only [hf]
      rw [ih _ hk']
      simp [List.lookup, hbeq]
    | none =>
      cases ho : env.mrCreateCollectionFn c.name with
      | ok v =>
        cases v with
        | some nid =>
          simp only [hf, ho]
          rw [ih _ hk']
          simp [List.lookup, hbeq]
        | none =>
          simp only [hf, ho]
          exact ih _ hk'
      | error e =>
        simp only [hf, ho]
        exact ih _ hk'

/-- Helper: when the source ids are distinct, a source collection whose name
matches an existing target collection ends up mapped to that target's id. -/
theorem mrCollectionsLoop_lookup_found (env : ApplyEnv) (current : List CollRec)
    (source : List CollRec) (c t : CollRec) :
    ∀ m : IdMap, (source.map CollRec.id).Nodup → c ∈ source →
      current.find? (fun x => x.name == c.name) = some t →
      List.lookup c.id (mrCollectionsLoop env current m source).2 = some t.id := by
  induction source with
  | nil => intro m _ hmem _; cases hmem
  | cons c' rest ih =>
    intro m hnd hmem hfind
    obtain ⟨hnotin, hnd'⟩ := List.nodup_cons.mp hnd
    rcases List.mem_cons.mp hmem with rfl | hmem'
    · unfold mrCollectionsLoop
      simp only [hfind]
      rw [mrCollectionsLoop_lookup_frozen env current rest c.id _ hnotin]
      simp [List.lookup]
    · unfold mrCollectionsLoop
      cases hf : current.find? (fun x => x.name == c'.name) with
      | some ex =>
        simp only [hf]
        exact ih _ hnd' hmem' hfind
      | none =>
        cases ho : env.mrCreateCollectionFn c'.name with
        | ok v =>
          cases v with
          | some nid =>
            simp only [hf, ho]
            exact ih _ hnd' hmem' hfind
          | none =>
            simp only [hf, ho]
            exact ih _ hnd' hmem' hfind
        | error e =>
          simp only [hf, ho]
          exact ih _ hnd' hmem' hfind

/-- Helper: no creation call is issued for a collection name that matches an
existing target collection. -/
theorem mrCollectionsLoop_nocall_matched (env : ApplyEnv) (current : List CollRec)
    (source : List CollRec) (c : CollRec)
    (hsome : (current.find? (fun x => x.name == c.name)).isSome = true) :
    ∀ m : IdMap,
      Call.createMRCollection c.name ∉ (mrCollectionsLoop env current m source).1.calls := by
  induction source with
  | nil => intro m hc; simp [mrCollectionsLoop, Log.nil] at hc
  | cons c' rest ih =>
    intro m
    unfold mrCollectionsLoop
    cases hf : current.find? (fun x => x.name == c'.name) with
    | some ex =>
      simp only [hf]
      exact ih _
    | none =>
      have hne : c.name ≠ c'.name := by
        intro h
        rw [← h] at hf
        rw [hf] at hsome
        cases hsome
      cases ho : env.mrCreateCollectionFn c'.name with
      | ok v =>
        cases v with
        | some nid =>
          simp only [hf, ho]
          intro hc
          rcases List.mem_cons.mp hc with heq | hmem
          · exact hne (by injection heq)
          · exact ih _ hmem
        | none =>
          simp only [hf, ho]
          intro hc
          rcases List.mem_cons.mp hc with heq | hmem
          · exact hne (by injection heq)
          · exact ih _ hmem
      | error e =>
        simp only [hf, ho]
        intro hc
        rcases List.mem_cons.mp hc with heq | hmem
        · exact hne (by injection heq)
        · exact ih _ hmem

/-- Helper: replay-collection analogue of `mrCollectionsLoop_lookup_frozen`. -/
theorem replayCollectionsLoop_lookup_frozen (env : ApplyEnv) (current : List CollRec)
    (source : List CollRec) (k : String) :
    ∀ m : IdMap, k ∉ source.map CollRec.id →
      List.lookup k (replayCollectionsLoop env current m source).2 = List.lookup k m := by
  induction source with
  | nil => intro m _; rfl
  | cons c rest ih =>
    intro m hk
    have hkc : k ≠ c.id := by
      intro h
      exact hk (by rw [h]; exact List.mem_cons_self _ _)
    have hbeq : (k == c.id) = false := beq_eq_false_iff_ne.mpr hkc
    have hk' : k ∉ rest.map CollRec.id := fun h => hk (List.mem_cons_of_mem _ h)
    unfold replayCollectionsLoop
    cases hf : current.find? (fun t => t.name == c.name) with
    | some ex =>
      simp only [hf]
      rw [ih _ hk']
      simp [List.lookup, hbeq]
    | none =>
      cases ho : env.replayCreateCollectionFn c.name with
      | ok v =>
        cases v with
        | some nid =>
          simp only [hf, ho]
          rw [ih _ hk']
          simp [List.lookup, hbeq]
        | none =>
          simp only [hf, ho]
          exact ih _ hk'
      | error e =>
        simp only [hf, ho]
        exact ih _ hk'

/-- Helper: replay-collection analogue of `mrCollectionsLoop_lookup_found`. -/
theorem replayCollectionsLoop_lookup_found (env : ApplyEnv) (current : List CollRec)
    (source : List CollRec) (c t : CollRec) :
    ∀ m : IdMap, (source.map CollRec.id).Nodup → c ∈ source →
      current.find? (fun x => x.name == c.name) = some t →
      List.lookup c.id (replayCollectionsLoop env current m source).2 = some t.id := by
  induction source with
  | nil => intro m _ hmem _; cases hmem
  | cons c' rest ih =>
    intro m hnd hmem hfind
    obtain ⟨hnotin, hnd'⟩ := List.nodup_cons.mp hnd
    rcases List.mem_cons.mp hmem with rfl | hmem'
    · unfold replayCollectionsLoop
      simp only [hfind]
      rw [replayCollectionsLoop_lookup_frozen env current rest c.id _ hnotin]
      simp [List.lookup]
    · unfold replayCollectionsLoop
      cases hf : current.find? (fun x => x.name == c'.name) with
      | some ex =>
        simp only [hf]
        exact ih _ hnd' hmem' hfind
      | none =>
        cases ho : env.replayCreateCollectionFn c'.name with
        | ok v =>
          cases v with
          | some nid =>
            simp only [hf, ho]
            exact ih _ hnd' hmem' hfind
          | none =>
            simp only [hf, ho]
            exact ih _ hnd' hmem' hfind
        | error e =>
          simp only [hf, ho]
          exact ih _ hnd' hmem' hfind

/-- Helper: replay-collection analogue of `mrCollectionsLoop_nocall_matched`. -/
theorem replayCollectionsLoop_nocall_matched (env : ApplyEnv) (current : List CollRec)
    (source : List CollRec) (c : CollRec)
    (hsome : (current.find? (fun x => x.name == c.name)).isSome = true) :
    ∀ m : IdMap,
      Call.createReplayCollection c.name ∉
        (replayCollectionsLoop env current m source).1.calls := by
  induction source with
  | nil => intro m hc; simp [replayCollectionsLoop, Log.nil] at hc
  | cons c' rest ih =>
    intro m
    unfold replayCollectionsLoop
    cases hf : current.find? (fun x => x.name == c'.name) with
    | some ex =>
      simp only [hf]
      exact ih _
    | none =>
      have hne : c.name ≠ c'.name := by
        intro h
        rw [← h] at hf
        rw [hf] at hsome
        cases hsome
      cases ho : env.replayCreateCollectionFn c'.name with
      | ok v =>
        cases v with
        | some nid =>
          simp only [hf, ho]
          intro hc
          rcases List.mem_cons.mp hc with heq | hmem
          · exact hne (by injection heq)
          · exact ih _ hmem
        | none =>
          simp only [hf, ho]
          intro hc
          rcases List.mem_cons.mp hc with heq | hmem
          · exact hne (by injection heq)
          · exact ih _ hmem
      | error e =>
        simp only [hf, ho]
        intro hc
        rcases List.mem_cons.mp hc with heq | hmem
        · exact hne (by injection heq)
        · exact ih _ hmem

/-- C6: in both reconciliation loops, a source collection whose name equals
(case-sensitively) the name of an existing target collection is mapped to the
first such target's id and no creation call is issued for it.  Source ids are
assumed distinct, per the snapshot invariant. -/
theorem c6_existing_collection_reused (env : ApplyEnv) (source current : List CollRec)
    (hnodup : (source.map CollRec.id).Nodup) (c : CollRec) (hc : c ∈ source) (t : CollRec)
    (hfind : current.find? (fun x => x.name == c.name) = some t) :
    (List.lookup c.id (mrCollectionsLoop env current [] source).2 = some t.id ∧
      Call.createMRCollection c.name ∉ (mrCollectionsLoop env current [] source).1.calls) ∧
    (List.lookup c.id (replayCollectionsLoop env current [] source).2 = some t.id ∧
      Call.createReplayCollection c.name ∉
        (replayCollectionsLoop env current [] source).1.calls) := by
  have hsome : (current.find? (fun x => x.name == c.name)).isSome = true := by
    rw [hfind]; rfl
  exact ⟨⟨mrCollectionsLoop_lookup_found env current source c t [] hnodup hc hfind,
      mrCollectionsLoop_nocall_matched env current source c hsome []⟩,
    ⟨replayCollectionsLoop_lookup_found env current source c t [] hnodup hc hfind,
      replayCollectionsLoop_nocall_matched env current source c hsome []⟩⟩

/-- C6 witness: a source collection named "X" against a target holding two
collections named "X" is mapped to the first one, in both loops, with no
create call. -/
theorem c6_witness :
    (List.lookup "s1" (mrCollectionsLoop envTrivial [⟨"t1", "X"⟩, ⟨"t2", "X"⟩] []
        [⟨"s1", "X"⟩]).2 = some "t1" ∧
      Call.createMRCollection "X" ∉ (mrCollectionsLoop envTrivial
        [⟨"t1", "X"⟩, ⟨"t2", "X"⟩] [] [⟨"s1", "X"⟩]).1.calls) ∧
    (List.lookup "s1" (replayCollectionsLoop envTrivial [⟨"t1", "X"⟩, ⟨"t2", "X"⟩] []
        [⟨"s1", "X"⟩]).2 = some "t1" ∧
      Call.createReplayCollection "X" ∉ (replayCollectionsLoop envTrivial
        [⟨"t1", "X"⟩, ⟨"t2", "X"⟩] [] [⟨"s1", "X"⟩]).1.calls) :=
  c6_existing_collection_reused envTrivial [⟨"s1", "X"⟩] [⟨"t1", "X"⟩, ⟨"t2", "X"⟩]
    (by decide) ⟨"s1", "X"⟩ (by decide) ⟨"t1", "X"⟩ (by decide)

/-- Helper: the session loop issues a create call for every session in the
list, whatever the outcomes of the other items. -/
theorem sessionsLoop_creates (env : ApplyEnv) (m : IdMap) (ss : List SessionData)
    (s : SessionData) (hs : s ∈ ss) :
    Call.createSession s.rawBytes s.url (sessionResolve m s) ∈
      (sessionsLoop env m ss).1.calls := by
  induction ss with
  | nil => cases hs
  | cons x rest ih =>
    unfold sessionsLoop
    rcases List.mem_cons.mp hs with rfl | hmem
    · cases hc : env.createSessionWrapperFn s.rawBytes s.url (sessionResolve m s) with
      | Error e =>
        simp only [hc]
        exact List.mem_cons_self _ _
      | Ok vid =>
        cases vid with
        | none =>
          simp only [hc]
          exact List.mem_cons_self _ _
        | some sid =>
          cases hn : s.name with
          | none =>
            simp only [hc, hn]
            exact List.mem_cons_self _ _
          | some nm =>
            cases hr : env.renameSessionFn sid nm with
            | ok u =>
              simp only [hc, hn, hr]
              exact List.mem_cons_self _ _
            | error e =>
              simp only [hc, hn, hr]
              exact List.mem_cons_self _ _
    · cases hc : env.createSessionWrapperFn x.rawBytes x.url (sessionResolve m x) with
      | Error e =>
        simp only [hc]
        exact List.mem_cons_of_mem _ (ih hmem)
      | Ok vid =>
        cases vid with
        | none =>
          simp only [hc]
          exact List.mem_cons_of_mem _ (ih hmem)
        | some sid =>
          cases hn : x.name with
          | none =>
            simp only [hc, hn]
            exact List.mem_cons_of_mem _ (ih hmem)
          | some nm =>
            cases hr : env.renameSessionFn sid nm with
            | ok u =>
              simp only [hc, hn, hr]
              exact List.mem_cons_of_mem _ (List.mem_cons_of_mem _ (ih hmem))
            | error e =>
              simp only [hc, hn, hr]
              exact List.mem_cons_of_mem _ (List.mem_cons_of_mem _ (ih hmem))

/-- Helper: a create call is attempted for every source collection whose name
has no match in the target, whatever the outcomes of the other items. -/
theorem mrCollectionsLoop_creates_unmatched (env : ApplyEnv) (current : List CollRec)
    (c : CollRec) (hf : current.find? (fun t => t.name == c.name) = none) :
    ∀ (cs : List CollRec) (m : IdMap), c ∈ cs →
      Call.createMRCollection c.name ∈ (mrCollectionsLoop env current m cs).1.calls := by
  intro cs
  induction cs with
  | nil => intro m hc; cases hc
  | cons c' rest ih =>
    intro m hc
    unfold mrCollectionsLoop
    rcases List.mem_cons.mp hc with rfl | hmem
    · simp only [hf]
      cases ho : env.mrCreateCollectionFn c.name with
      | ok v =>
        cases v with
        | some nid => simp only [ho]; exact List.mem_cons_self _ _
        | none => simp only [ho]; exact List.mem_cons_self _ _
      | error e => simp only [ho]; exact List.mem_cons_self _ _
    · cases hf' : current.find? (fun t => t.name == c'.name) with
      | some ex =>
        simp only [hf']
        exact ih _ hmem
      | none =>
        cases ho : env.mrCreateCollectionFn c'.name with
        | ok v =>
          cases v with
          | some nid =>
            simp only [hf', ho]
            exact List.mem_cons_of_mem _ (ih _ hmem)
          | none =>
            simp only [hf', ho]
            exact List.mem_cons_of_mem _ (ih _ hmem)
        | error e =>
          simp only [hf', ho]
          exact List.mem_cons_of_mem _ (ih _ hmem)

/-- Helper: a create call is attempted for every rule whose collection id
resolves, whatever the outcomes of the other items. -/
theorem mrRulesLoop_creates_resolved (env : ApplyEnv) (m : IdMap) (ncid : String) :
    ∀ (rs : List SrcRule) (r : SrcRule), r ∈ rs → ruleResolve m r = some ncid →
      Call.createMRRule ncid r.name r.query r.sectionVal [] ∈
        (mrRulesLoop env m rs).1.calls := by
  intro rs
  induction rs with
  | nil => intro r hr; cases hr
  | cons x rest ih =>
    intro r hr hres
    unfold mrRulesLoop
    rcases List.mem_cons.mp hr with rfl | hmem
    · simp only [hres]
      cases ho : env.createRuleFn ncid r.name r.query r.sectionVal [] with
      | ok u => simp only [ho]; exact List.mem_cons_self _ _
      | error e => simp only [ho]; exact List.mem_cons_self _ _
    · cases hx : ruleResolve m x with
      | none =>
        simp only [hx]
        exact ih r hmem hres
      | some ncid2 =>
        cases ho : env.createRuleFn ncid2 x.name x.query x.sectionVal [] with
        | ok u =>
          simp only [hx, ho]
          exact List.mem_cons_of_mem _ (ih r hmem hres)
        | error e =>
          simp only [hx, ho]
          exact List.mem_cons_of_mem _ (ih r hmem hres)

/-- Helper: with all scope creations succeeding, the scope loop reports no
pending exception. -/
theorem applyScopesLoop_ok (env : ApplyEnv)
    (hok : ∀ sc, env.createScopeFn sc = Except.ok ()) (l : List String) :
    (applyScopesLoop env l).2.2 = none := by
  induction l with
  | nil => rfl
  | cons sc rest ih =>
    unfold applyScopesLoop
    simp only [hok sc]
    exact ih

/-- Helper: with all filter creations succeeding, the filter loop reports no
pending exception. -/
theorem applyFiltersLoop_ok (env : ApplyEnv)
    (hok : ∀ f, env.createFilterFn f = Except.ok ()) (current l : List Filter) :
    (applyFiltersLoop env current l).2.2 = none := by
  induction l with
  | nil => rfl
  | cons f rest ih =>
    unfold applyFiltersLoop
    cases hsk : filterSkipped current f with
    | true =>
      simp only [hsk, if_true]
      exact ih
    | false =>
      simp only [hsk, Bool.false_eq_true, if_false, hok f]
      exact ih

/-- Helper: when scope and filter creation succeed, every stored session's
create call reaches the run's call log, whatever happens in the
match/replace step or to the other sessions. -/
theorem applyBody_sessions_attempted (env : ApplyEnv)
    (hsc : ∀ sc, env.createScopeFn sc = Except.ok ())
    (hfl : ∀ f, env.createFilterFn f = Except.ok ())
    (fc : List Filter) (cc crc : List CollRec) (data : StoredData)
    (ss : List SessionData) (hss : data.sessions = some ss)
    (s : SessionData) (hs : s ∈ ss) :
    ∃ oc, Call.createSession s.rawBytes s.url oc ∈ (applyBody env fc cc crc data).calls := by
  unfold applyBody
  have h1 : (match data.scopes with
      | some l => applyScopesLoop env l
      | none => (Log.nil, 0, none)).2.2 = (none : Option JsError) := by
    cases data.scopes with
    | some l => exact applyScopesLoop_ok env hsc l
    | none => rfl
  have h2 : (match data.filters with
      | some l => applyFiltersLoop env fc l
      | none => (Log.nil, 0, none)).2.2 = (none : Option JsError) := by
    cases data.filters with
    | some l => exact applyFiltersLoop_ok env hfl fc l
    | none => rfl
  simp only [h1, h2, hss]
  unfold sessionsStep
  set rc := (match data.replayCollections with
    | some cs => replayCollectionsLoop env crc [] cs
    | none => (Log.nil, ([] : IdMap)))
  refine ⟨sessionResolve rc.2 s, ?_⟩
  have hmem := sessionsLoop_creates env rc.2 ss s hs
  simp only [Log.append, List.mem_append]
  tauto

/-- Helper: a session-creation failure is reported with an error toast. -/
theorem sessionsLoop_error_reported (env : ApplyEnv) (m : IdMap) :
    ∀ (ss : List SessionData) (s : SessionData) (e : String), s ∈ ss →
      env.createSessionWrapperFn s.rawBytes s.url (sessionResolve m s) = Result.Error e →
      mkToast ("Error creating session \"" ++ showOptName s.name ++ "\": " ++ e)
        Variant.error ∈ (sessionsLoop env m ss).1.toasts := by
  intro ss
  induction ss with
  | nil => intro s e hs; cases hs
  | cons x rest ih =>
    intro s e hs hc
    unfold sessionsLoop
    rcases List.mem_cons.mp hs with rfl | hmem
    · simp only [hc]
      exact List.mem_cons_self _ _
    · cases hx : env.createSessionWrapperFn x.rawBytes x.url (sessionResolve m x) with
      | Error e2 =>
        simp only [hx]
        exact List.mem_cons_of_mem _ (ih s e hmem hc)
      | Ok vid =>
        cases vid with
        | none =>
          simp only [hx]
          exact ih s e hmem hc
        | some sid =>
          cases hn : x.name with
          | none =>
            simp only [hx, hn]
            exact ih s e hmem hc
          | some nm =>
            cases hr : env.renameSessionFn sid nm with
            | ok u =>
              simp only [hx, hn, hr]
              exact ih s e hmem hc
            | error e2 =>
              simp only [hx, hn, hr]
              exact List.mem_cons_of_mem _ (ih s e hmem hc)

/-- Helper: a rename failure after a successful session creation is reported
with a warning toast. -/
theorem sessionsLoop_rename_warns (env : ApplyEnv) (m : IdMap) :
    ∀ (ss : List SessionData) (s : SessionData) (sid nm : String) (e : JsError), s ∈ ss →
      env.createSessionWrapperFn s.rawBytes s.url (sessionResolve m s) =
        Result.Ok (some sid) →
      s.name = some nm → env.renameSessionFn sid nm = Except.error e →
      mkToast ("Session created but could not rename to \"" ++ nm ++ "\": " ++
        errorMessageUnknown e) Variant.warning ∈ (sessionsLoop env m ss).1.toasts := by
  intro ss
  induction ss with
  | nil => intro s sid nm e hs; cases hs
  | cons x rest ih =>
    intro s sid nm e hs hc hn hr
    unfold sessionsLoop
    rcases List.mem_cons.mp hs with rfl | hmem
    · simp only [hc, hn, hr]
      exact List.mem_cons_self _ _
    · cases hx : env.createSessionWrapperFn x.rawBytes x.url (sessionResolve m x) with
      | Error e2 =>
        simp only [hx]
        exact List.mem_cons_of_mem _ (ih s sid nm e hmem hc hn hr)
      | Ok vid =>
        cases vid with
        | none =>
          simp only [hx]
          exact ih s sid nm e hmem hc hn hr
        | some sid2 =>
          cases hn2 : x.name with
          | none =>
            simp only [hx, hn2]
            exact ih s sid nm e hmem hc hn hr
          | some nm2 =>
            cases hr2 : env.renameSessionFn sid2 nm2 with
            | ok u =>
              simp only [hx, hn2, hr2]
              exact ih s sid nm e hmem hc hn hr
            | error e2 =>
              simp only [hx, hn2, hr2]
              exact List.mem_cons_of_mem _ (ih s sid nm e hmem hc hn hr)

/-- Helper: a match/replace collection-creation failure is reported with a
warning toast. -/
theorem mrCollectionsLoop_error_warns (env : ApplyEnv) (current : List CollRec) :
    ∀ (cs : List CollRec) (m : IdMap) (c : CollRec) (e : JsError), c ∈ cs →
      current.find? (fun t => t.name == c.name) = none →
      env.mrCreateCollectionFn c.name = Except.error e →
      mkToast ("Error creating match replace collection \"" ++ c.name ++ "\": " ++
        errorMessageUnknown e) Variant.warning ∈
        (mrCollectionsLoop env current m cs).1.toasts := by
  intro cs
  induction cs with
  | nil => intro m c e hc; cases hc
  | cons c' rest ih =>
    intro m c e hc hf he
    unfold mrCollectionsLoop
    rcases List.mem_cons.mp hc with rfl | hmem
    · simp only [hf, he]
      exact List.mem_cons_self _ _
    · cases hf' : current.find? (fun t => t.name == c'.name) with
      | some ex =>
        simp only [hf']
        exact ih _ c e hmem hf he
      | none =>
        cases ho : env.mrCreateCollectionFn c'.name with
        | ok v =>
          cases v with
          | some nid =>
            simp only [hf', ho]
            exact ih _ c e hmem hf he
          | none =>
            simp only [hf', ho]
            exact List.mem_cons_of_mem _ (ih _ c e hmem hf he)
        | error e2 =>
          simp only [hf', ho]
          exact List.mem_cons_of_mem _ (ih _ c e hmem hf he)

/-- Helper: replay analogue of `mrCollectionsLoop_creates_unmatched`. -/
theorem replayCollectionsLoop_creates_unmatched (env : ApplyEnv) (current : List CollRec)
    (c : CollRec) (hf : current.find? (fun t => t.name == c.name) = none) :
    ∀ (cs : List CollRec) (m : IdMap), c ∈ cs →
      Call.createReplayCollection c.name ∈
        (replayCollectionsLoop env current m cs).1.calls := by
  intro cs
  induction cs with
  | nil => intro m hc; cases hc
  | cons c' rest ih =>
    intro m hc
    unfold replayCollectionsLoop
    rcases List.mem_cons.mp hc with rfl | hmem
    · simp only [hf]
      cases ho : env.replayCreateCollectionFn c.name with
      | ok v =>
        cases v with
        | some nid => simp only [ho]; exact List.mem_cons_self _ _
        | none => simp only [ho]; exact List.mem_cons_self _ _
      | error e => simp only [ho]; exact List.mem_cons_self _ _
    · cases hf' : current.find? (fun t => t.name == c'.name) with
      | some ex =>
        simp only [hf']
        exact ih _ hmem
      | none =>
        cases ho : env.replayCreateCollectionFn c'.name with
        | ok v =>
          cases v with
          | some nid =>
            simp only [hf', ho]
            exact List.mem_cons_of_mem _ (ih _ hmem)
          | none =>
            simp only [hf', ho]
            exact List.mem_cons_of_mem _ (ih _ hmem)
        | error e =>
          simp only [hf', ho]
          exact List.mem_cons_of_mem _ (ih _ hmem)

/-- Helper: a replay collection-creation failure is reported with a warning
toast. -/
theorem replayCollectionsLoop_error_warns (env : ApplyEnv) (current : List CollRec) :
    ∀ (cs : List CollRec) (m : IdMap) (c : CollRec) (e : JsError), c ∈ cs →
      current.find? (fun t => t.name == c.name) = none →
      env.replayCreateCollectionFn c.name = Except.error e →
      mkToast ("Error creating replay collection \"" ++ c.name ++ "\": " ++
        errorMessageUnknown e) Variant.warning ∈
        (replayCollectionsLoop env current m cs).1.toasts := by
  intro cs
  induction cs with
  | nil => intro m c e hc; cases hc
  | cons c' rest ih =>
    intro m c e hc hf he
    unfold replayCollectionsLoop
    rcases List.mem_cons.mp hc with rfl | hmem
    · simp only [hf, he]
      exact List.mem_cons_self _ _
    · cases hf' : current.find? (fun t => t.name == c'.name) with
      | some ex =>
        simp only [hf']
        exact ih _ c e hmem hf he
      | none =>
        cases ho : env.replayCreateCollectionFn c'.name with
        | ok v =>
          cases v with
          | some nid =>
            simp only [hf', ho]
            exact ih _ c e hmem hf he
          | none =>
            simp only [hf', ho]
            exact List.mem_cons_of_mem _ (ih _ c e hmem hf he)
        | error e2 =>
          simp only [hf', ho]
          exact List.mem_cons_of_mem _ (ih _ c e hmem hf he)

/-- Helper: a rule-creation failure is reported with a warning toast. -/
theorem mrRulesLoop_error_warns (env : ApplyEnv) (m : IdMap) :
    ∀ (rs : List SrcRule) (r : SrcRule) (ncid : String) (e : JsError), r ∈ rs →
      ruleResolve m r = some ncid →
      env.createRuleFn ncid r.name r.query r.sectionVal [] = Except.error e →
      mkToast ("Error creating rule \"" ++ (r.name.getD "Unknown Rule") ++ "\": " ++
        errorMessageString e) Variant.warning ∈ (mrRulesLoop env m rs).1.toasts := by
  intro rs
  induction rs with
  | nil => intro r ncid e hr; cases hr
  | cons x rest ih =>
    intro r ncid e hr hres he
    unfold mrRulesLoop
    rcases List.mem_cons.mp hr with rfl | hmem
    · simp only [hres, he]
      exact List.mem_cons_self _ _
    · cases hx : ruleResolve m x with
      | none =>
        simp only [hx]
        exact List.mem_cons_of_mem _ (ih r ncid e hmem hres he)
      | some ncid2 =>
        cases ho : env.createRuleFn ncid2 x.name x.query x.sectionVal [] with
        | ok u =>
          simp only [hx, ho]
          exact ih r ncid e hmem hres he
        | error e2 =>
          simp only [hx, ho]
          exact List.mem_cons_of_mem _ (ih r ncid e hmem hres he)

/-- C2 (amended): failures of match/replace collection creation, replay
collection creation, rule creation and session rename are caught per item
and reported as warning toasts; a session-creation failure is caught per item
and reported as an error toast; in every case the loop continues — every
later item's call is still attempted — and, when the scope and filter steps
succeed, a failure inside the match/replace step never prevents the
replay-session step from running. -/
theorem c2_amended_per_item_recovery (env : ApplyEnv) :
    (∀ (m : IdMap) (ss : List SessionData) (s : SessionData), s ∈ ss →
      Call.createSession s.rawBytes s.url (sessionResolve m s) ∈
        (sessionsLoop env m ss).1.calls) ∧
    (∀ (m : IdMap) (ss : List SessionData) (s : SessionData) (e : String), s ∈ ss →
      env.createSessionWrapperFn s.rawBytes s.url (sessionResolve m s) = Result.Error e →
      mkToast ("Error creating session \"" ++ showOptName s.name ++ "\": " ++ e)
        Variant.error ∈ (sessionsLoop env m ss).1.toasts) ∧
    (∀ (m : IdMap) (ss : List SessionData) (s : SessionData) (sid nm : String)
      (e : JsError), s ∈ ss →
      env.createSessionWrapperFn s.rawBytes s.url (sessionResolve m s) =
        Result.Ok (some sid) →
      s.name = some nm → env.renameSessionFn sid nm = Except.error e →
      mkToast ("Session created but could not rename to \"" ++ nm ++ "\": " ++
        errorMessageUnknown e) Variant.warning ∈ (sessionsLoop env m ss).1.toasts) ∧
    (∀ (current : List CollRec) (m : IdMap) (cs : List CollRec) (c : CollRec), c ∈ cs →
      current.find? (fun t => t.name == c.name) = none →
      Call.createMRCollection c.name ∈ (mrCollectionsLoop env current m cs).1.calls) ∧
    (∀ (current : List CollRec) (m : IdMap) (cs : List CollRec) (c : CollRec)
      (e : JsError), c ∈ cs →
      current.find? (fun t => t.name == c.name) = none →
      env.mrCreateCollectionFn c.name = Except.error e →
      mkToast ("Error creating match replace collection \"" ++ c.name ++ "\": " ++
        errorMessageUnknown e) Variant.warning ∈
        (mrCollectionsLoop env current m cs).1.toasts) ∧
    (∀ (current : List CollRec) (m : IdMap) (cs : List CollRec) (c : CollRec), c ∈ cs →
      current.find? (fun t => t.name == c.name) = none →
      Call.createReplayCollection c.name ∈
        (replayCollectionsLoop env current m cs).1.calls) ∧
    (∀ (current : List CollRec) (m : IdMap) (cs : List CollRec) (c : CollRec)
      (e : JsError), c ∈ cs →
      current.find? (fun t => t.name == c.name) = none →
      env.replayCreateCollectionFn c.name = Except.error e →
      mkToast ("Error creating replay collection \"" ++ c.name ++ "\": " ++
        errorMessageUnknown e) Variant.warning ∈
        (replayCollectionsLoop env current m cs).1.toasts) ∧
    (∀ (m : IdMap) (rs : List SrcRule) (r : SrcRule) (ncid : String), r ∈ rs →
      ruleResolve m r = some ncid →
      Call.createMRRule ncid r.name r.query r.sectionVal [] ∈
        (mrRulesLoop env m rs).1.calls) ∧
    (∀ (m : IdMap) (rs : List SrcRule) (r : SrcRule) (ncid : String) (e : JsError),
      r ∈ rs → ruleResolve m r = some ncid →
      env.createRuleFn ncid r.name r.query r.sectionVal [] = Except.error e →
      mkToast ("Error creating rule \"" ++ (r.name.getD "Unknown Rule") ++ "\": " ++
        errorMessageString e) Variant.warning ∈ (mrRulesLoop env m rs).1.toasts) ∧
    (∀ (fc : List Filter) (cc crc : List CollRec) (data : StoredData)
      (ss : List SessionData) (s : SessionData),
      (∀ sc, env.createScopeFn sc = Except.ok ()) →
      (∀ f, env.createFilterFn f = Except.ok ()) →
      data.sessions = some ss → s ∈ ss →
      ∃ oc, Call.createSession s.rawBytes s.url oc ∈
        (applyBody env fc cc crc data).calls) := by
  refine ⟨fun m ss s hs => sessionsLoop_creates env m ss s hs,
    fun m ss s e hs hc => sessionsLoop_error_reported env m ss s e hs hc,
    fun m ss s sid nm e hs hc hn hr =>
      sessionsLoop_rename_warns env m ss s sid nm e hs hc hn hr,
    fun current m cs c hc hf =>
      mrCollectionsLoop_creates_unmatched env current c hf cs m hc,
    fun current m cs c e hc hf he =>
      mrCollectionsLoop_error_warns env current cs m c e hc hf he,
    fun current m cs c hc hf =>
      replayCollectionsLoop_creates_unmatched env current c hf cs m hc,
    fun current m cs c e hc hf he =>
      replayCollectionsLoop_error_warns env current cs m c e hc hf he,
    fun m rs r ncid hr hres => mrRulesLoop_creates_resolved env m ncid rs r hr hres,
    fun m rs r ncid e hr hres he => mrRulesLoop_error_warns env m rs r ncid e hr hres he,
    fun fc cc crc data ss s hsc hfl hss hs =>
      applyBody_sessions_attempted env hsc hfl fc cc crc data ss hss s hs⟩

/-- C2 amended witness: with a failing session-creation oracle, the session's
create call is still attempted and the failure is reported as an error
toast. -/
theorem c2_amended_witness :
    Call.createSession [1] "u" none ∈
      (sessionsLoop envSessionFail [] [⟨[1], "u", none, none⟩]).1.calls ∧
    mkToast ("Error creating session \"" ++ "undefined" ++ "\": " ++ "down")
      Variant.error ∈ (sessionsLoop envSessionFail [] [⟨[1], "u", none, none⟩]).1.toasts :=
  ⟨(c2_amended_per_item_recovery envSessionFail).1 [] [⟨[1], "u", none, none⟩]
      ⟨[1], "u", none, none⟩ (by decide),
    (c2_amended_per_item_recovery envSessionFail).2.1 [] [⟨[1], "u", none, none⟩]
      ⟨[1], "u", none, none⟩ "down" (by decide) rfl⟩

/-- Helper: dropping the unresolved rules from the list leaves the rule
loop's creation calls unchanged — unresolved rules contribute no call. -/
theorem mrRulesLoop_filter_unresolved (env : ApplyEnv) (m : IdMap) :
    ∀ rs : List SrcRule,
      (mrRulesLoop env m rs).1.calls =
        (mrRulesLoop env m (rs.filter (fun r => (ruleResolve m r).isSome))).1.calls := by
  intro rs
  induction rs with
  | nil => rfl
  | cons r rest ih =>
    cases hres : ruleResolve m r with
    | none =>
      rw [List.filter_cons]
      simp only [hres, Option.isSome_none, Bool.false_eq_true, if_false]
      conv_lhs => rw [mrRulesLoop]
      simp only [hres]
      exact ih
    | some ncid =>
      rw [List.filter_cons]
      simp only [hres, Option.isSome_some, if_true]
      unfold mrRulesLoop
      simp only [hres]
      cases ho : env.createRuleFn ncid r.name r.query r.sectionVal [] with
      | ok u =>
        simp only [ho]
        rw [ih]
      | error e =>
        simp only [ho]
        rw [ih]

/-- Helper: every unresolved rule produces its skip warning. -/
theorem mrRulesLoop_skip_warns (env : ApplyEnv) (m : IdMap) :
    ∀ (rs : List SrcRule) (r : SrcRule), r ∈ rs → ruleResolve m r = none →
      mkToast ("Skipping rule \"" ++ (r.name.getD "Unknown Rule") ++
          "\": Collection not found or not mapped") Variant.warning ∈
        (mrRulesLoop env m rs).1.toasts := by
  intro rs
  induction rs with
  | nil => intro r hr; cases hr
  | cons x rest ih =>
    intro r hr hres
    unfold mrRulesLoop
    rcases List.mem_cons.mp hr with rfl | hmem
    · simp only [hres]
      exact List.mem_cons_self _ _
    · cases hx : ruleResolve m x with
      | none =>
        simp only [hx]
        exact List.mem_cons_of_mem _ (ih r hmem hres)
      | some ncid =>
        cases ho : env.createRuleFn ncid x.name x.query x.sectionVal [] with
        | ok u =>
          simp only [hx, ho]
          exact ih r hmem hres
        | error e =>
          simp only [hx, ho]
          exact List.mem_cons_of_mem _ (ih r hmem hres)

/-- C4 (amended): a rule whose stored collection id has no IdentityMap entry
(empty, absent, or unmapped) contributes no creation call and is reported
with a skip warning; a session whose stored collection id has no entry is
not skipped — its create call occurs with no collection id. -/
theorem c4_amended_unresolved_refs (env : ApplyEnv) (m : IdMap) :
    (∀ rs : List SrcRule,
      (mrRulesLoop env m rs).1.calls =
        (mrRulesLoop env m (rs.filter (fun r => (ruleResolve m r).isSome))).1.calls) ∧
    (∀ (rs : List SrcRule) (r : SrcRule), r ∈ rs → ruleResolve m r = none →
      mkToast ("Skipping rule \"" ++ (r.name.getD "Unknown Rule") ++
          "\": Collection not found or not mapped") Variant.warning ∈
        (mrRulesLoop env m rs).1.toasts) ∧
    (∀ (ss : List SessionData) (s : SessionData), s ∈ ss → sessionResolve m s = none →
      Call.createSession s.rawBytes s.url none ∈ (sessionsLoop env m ss).1.calls) := by
  refine ⟨mrRulesLoop_filter_unresolved env m, mrRulesLoop_skip_warns env m, ?_⟩
  intro ss s hs hres
  have h := sessionsLoop_creates env m ss s hs
  rw [hres] at h
  exact h

/-- A rule with an empty-string collection id, unresolvable by construction. -/
def ruleEmptyCid : SrcRule := ⟨"r1", some "R", some true, "q", "sec", some "", some []⟩

/-- C4 amended witness: the empty-string-collection rule yields its skip
warning. -/
theorem c4_amended_witness :
    mkToast ("Skipping rule \"" ++ "R" ++ "\": Collection not found or not mapped")
      Variant.warning ∈ (mrRulesLoop envTrivial [] [ruleEmptyCid]).1.toasts :=
  (c4_amended_unresolved_refs envTrivial []).2.1 [ruleEmptyCid] ruleEmptyCid
    (by decide) rfl

end ProjectMinify
